import Mathlib

/-!
# Verification of the Polkadot CLI lifecycle layer (`src/cli/src/lib.rs`)

A shallow embedding of the command-dispatch and lifecycle-orchestration
code of the `polkadot-cli` crate.  The embedding translates the control
flow of `run`, `NodeRun::run_until`, `OtherRun::run_until`,
`run_until_exit` and `load_spec` into pure Lean functions.  Side effects
that the claims talk about (node construction, signal creation and
firing, telemetry-guard acquisition and release, task spawning, the
resolution of the race between the service and the exit trigger, chain
operations, the validation worker call) are made observable as an event
trace returned alongside the function result.  Environment choices that
are external to the file (which future wins the race, the outcomes of
the externally implemented constructors and commands) are explicit
parameters.
-/

namespace PolkadotCli

/-- The node roles distinguished by the code.  The Rust `service::Roles`
is a bitflags type; `NodeRun::run_until` only distinguishes
`Roles::LIGHT` from everything else, and these are the named flag
values. -/
inductive Roles
  | NONE
  | FULL
  | LIGHT
  | AUTHORITY
  deriving DecidableEq, Repr

/-- `service::CustomConfiguration`, the worker-supplied part of the
configuration.  Its concrete fields live in the external `service`
crate; the payload is abstracted to an opaque datum. -/
structure CustomConfiguration where
  data : Nat
  deriving DecidableEq, Repr

instance : Inhabited CustomConfiguration := ⟨⟨0⟩⟩

/-- The node `Configuration` as consumed by this file: the fields the
code reads or writes (`chain_spec` name, `name`, `roles`, `custom`); all
remaining fields of the external `Configuration` struct, which this file
never touches, are bundled into `rest`. -/
structure Configuration where
  chain_spec : String
  name : String
  roles : Roles
  custom : CustomConfiguration
  rest : Nat
  deriving DecidableEq, Repr

/-- `cli::error::Error` as used in `run_until_exit`: the service error
variant (`Error::Service`, payload abstracted to its rendered text) and
the catch-all `Error::Other(String)`. -/
inductive CliError
  | Service (e : String)
  | Other (s : String)
  deriving DecidableEq, Repr

/-- Debug rendering of a `cli::error::Error`, standing for the
`format!("{:?}", e)` applied at the end of the `NodeRun::run_until`
closure. -/
def CliError.render : CliError → String
  | .Service e => "Service(" ++ e ++ ")"
  | .Other s => "Other(" ++ s ++ ")"

/-- Which of the two raced futures in `run_until_exit` completes first:
the service (the node completion future) or the exit trigger `until`. -/
inductive Winner
  | service
  | exitTrigger
  deriving DecidableEq, Repr

/-- A task handed to `runtime.executor().spawn(...)`.  The code only
ever spawns futures wrapped by `exit.until(...)`, i.e. scoped to the
cancellation token; the `unscoped` form exists so that its absence from
every trace is a statable property. -/
inductive SpawnedTask
  | scopedToExit (name : String)
  | unscoped (name : String)
  deriving DecidableEq, Repr

instance {ε α : Type} [DecidableEq ε] [DecidableEq α] : DecidableEq (Except ε α) := fun a b =>
  match a, b with
  | .ok x, .ok y =>
    if h : x = y then .isTrue (h ▸ rfl) else .isFalse (fun hh => by cases hh; exact h rfl)
  | .ok _, .error _ => .isFalse (fun hh => by cases hh)
  | .error _, .ok _ => .isFalse (fun hh => by cases hh)
  | .error x, .error y =>
    if h : x = y then .isTrue (h ▸ rfl) else .isFalse (fun hh => by cases hh; exact h rfl)

/-- Observable events of an invocation, in program order. -/
inductive Event
  | newLightCall (cfg : Configuration)
  | newFullCall (cfg : Configuration)
  | signalCreate
  | spawn (t : SpawnedTask)
  | telemetryTake
  | raceResolved (r : Except CliError Unit)
  | fireSignal
  | telemetryDrop
  | newChainOpsCall
  | buildSpecExec
  | exportExec
  | importExec
  | purgeExec
  | revertExec
  | runValidationWorkerCall (mem_id : String)
  deriving DecidableEq, Repr

/-- Modelled from the spec: the `exit_future` cancellation token (the
crate implementing `exit_future::signal()` is an external collaborator,
not in `src/`).  Per the spec it is a single-fire broadcast token: a
monotonic `fired` flag observed by all listeners. -/
structure ExitSignal where
  fired : Bool
  deriving DecidableEq, Repr

/-- Modelled from the spec: firing the token.  Returns the new token
state and `some ()` when an observable fire event is broadcast to
listeners; firing an already-fired token changes nothing and broadcasts
nothing (idempotent, total — no panic). -/
def ExitSignal.fire (s : ExitSignal) : ExitSignal × Option Unit :=
  if s.fired then (s, none) else (⟨true⟩, some ())

/-- Modelled from the spec: `exit_future::signal()` creates a fresh,
unfired token. -/
def ExitSignal.signal : ExitSignal := ⟨false⟩

/-- The result of the `select` race in `run_until_exit`
(`service.select(exit).map(|_| ()).map_err(|(err, _)| err)`): the winner
determines the outcome, the loser is cancelled and its result
discarded.  The service future has already been wrapped by
`.map_err(|err| error::Error::Service(err))` and the exit trigger by
`.map_err(|_| error::Error::Other("Exit future failed.".into()))`. -/
def selectOutcome (w : Winner) (svc : Except String Unit)
    (untilR : Except Unit Unit) : Except CliError Unit :=
  match w with
  | .service => svc.mapError CliError.Service
  | .exitTrigger => untilR.mapError (fun _ => CliError.Other "Exit future failed.")

/-- The body of `run_until_exit` (lib.rs lines 210–239), as a trace of
events plus the function result.  `svc` is the eventual outcome of the
service completion future, `untilR` the eventual outcome of the exit
trigger `until.into_exit()`, and `w` which of the two the race resolves
with.  Program order: create the signal, spawn the informant wrapped in
`exit.until(..)`, take the telemetry guard, block on the race and
discard its result (`let _ = runtime.block_on(select);`), fire the
signal, return `Ok(())`; the telemetry guard local is dropped at scope
end, after the fire. -/
def run_until_exit (svc : Except String Unit) (untilR : Except Unit Unit)
    (w : Winner) : List Event × Except CliError Unit :=
  let raceR := selectOutcome w svc untilR
  ([Event.signalCreate,
    Event.spawn (SpawnedTask.scopedToExit "informant"),
    Event.telemetryTake,
    Event.raceResolved raceR,
    Event.fireSignal,
    Event.telemetryDrop],
   Except.ok ())

/-- Final token state of a `run_until_exit` invocation: the single
`exit_send.fire()` applied to the freshly created signal. -/
def runFinalSignal : ExitSignal := (ExitSignal.signal.fire).1

/-- The closure body of `NodeRun::run_until` (lib.rs lines 164–185),
invoked by the external `cli::ParseAndPrepareRun::run` with the parsed
`config`.  `new_light` and `new_full` are the external service
constructors (error payloads carried as their rendered text), `rt` the
outcome of `Runtime::new()`, and `svcOf` gives the eventual completion
outcome of a constructed service.  Returns the event trace and the
closure result. -/
def runCtor (ev : Configuration → Event)
    (ctor : Configuration → Except String (Except String Unit))
    (untilR : Except Unit Unit) (w : Winner) (config : Configuration) :
    List Event × Except String Unit :=
  match ctor config with
  | .error e => ([ev config], .error e)
  | .ok svc =>
    let r := run_until_exit svc untilR w
    (ev config :: r.1, r.2.mapError CliError.render)

def nodeRunBody (custom_config : CustomConfiguration)
    (new_light new_full : Configuration → Except String (Except String Unit))
    (rt : Except String Unit)
    (untilR : Except Unit Unit) (w : Winner)
    (config : Configuration) : List Event × Except String Unit :=
  let config := { config with custom := custom_config }
  match rt with
  | .error e => ([], .error e)
  | .ok () =>
    match config.roles with
    | Roles.LIGHT => runCtor Event.newLightCall new_light untilR w config
    | _ => runCtor Event.newFullCall new_full untilR w config

/-- The hidden `validation-worker` subcommand arguments. -/
structure ValidationWorkerCommand where
  mem_id : String
  deriving DecidableEq, Repr

/-- The custom subcommands of the Polkadot CLI. -/
inductive PolkadotSubCommands
  | ValidationWorker (cmd : ValidationWorkerCommand)
  deriving DecidableEq, Repr

/-- `cli::ParseAndPrepare`, the parsed-command value produced by the
external `cli::parse_and_prepare` and matched in `run`.  Payloads of
the non-custom variants live in the external crate and are elided. -/
inductive ParseAndPrepare
  | Run
  | BuildSpec
  | ExportBlocks
  | ImportBlocks
  | PurgeChain
  | RevertChain
  | CustomCommand (c : PolkadotSubCommands)
  deriving DecidableEq, Repr

/-- `OtherRunInner`, the maintenance / validation-worker dispatch tag
held by `OtherRun`. -/
inductive OtherRunInner
  | BuildSpec
  | Export
  | Import
  | Purge
  | Revert
  | ValidationWorker (cmd : ValidationWorkerCommand)
  deriving DecidableEq, Repr

/-- The `Run` value returned by `run`.  The `Node` payload (version
info and the external parse state) is elided. -/
inductive Run
  | Node
  | Other (inner : OtherRunInner)
  deriving DecidableEq, Repr

/-- The `run` function (lib.rs lines 122–154): maps the parsed command
to the `Run` value handed back to the caller. -/
def run : ParseAndPrepare → Run
  | .Run => Run.Node
  | .BuildSpec => Run.Other OtherRunInner.BuildSpec
  | .ExportBlocks => Run.Other OtherRunInner.Export
  | .ImportBlocks => Run.Other OtherRunInner.Import
  | .PurgeChain => Run.Other OtherRunInner.Purge
  | .RevertChain => Run.Other OtherRunInner.Revert
  | .CustomCommand (.ValidationWorker c) => Run.Other (OtherRunInner.ValidationWorker c)

/-- Outcomes of the external operations driven by
`OtherRun::run_until`: the externally implemented command runners and
`service::run_validation_worker`. -/
structure OtherEnv where
  buildSpec : Except String Unit
  exportBlocks : Except String Unit
  importBlocks : Except String Unit
  purgeChain : Except String Unit
  revertChain : Except String Unit
  runValidationWorker : String → Except String Unit

/-- `OtherRun::run_until` (lib.rs lines 192–207): dispatches the held
variant to exactly one branch.  The export/import/revert branches hand a
`new_chain_ops`-based builder to the external runner; the
validation-worker branch calls `service::run_validation_worker` on the
stored `mem_id` and nothing else. -/
def otherRunUntil (inner : OtherRunInner) (env : OtherEnv) :
    List Event × Except String Unit :=
  match inner with
  | .BuildSpec => ([Event.buildSpecExec], env.buildSpec)
  | .Export => ([Event.newChainOpsCall, Event.exportExec], env.exportBlocks)
  | .Import => ([Event.newChainOpsCall, Event.importExec], env.importBlocks)
  | .Purge => ([Event.purgeExec], env.purgeChain)
  | .Revert => ([Event.newChainOpsCall, Event.revertExec], env.revertChain)
  | .ValidationWorker cmd =>
    ([Event.runValidationWorkerCall cmd.mem_id],
     (env.runValidationWorker cmd.mem_id).map (fun _ => ()))

/-- `load_spec` (lib.rs lines 42–47).  `from` and `load` stand for
`ChainSpec::from` and `ChainSpec::load` of the `chain_spec` module
(declared by `mod chain_spec;` but whose file is not in `src/`); the
match and the `?`-propagation are the code of `load_spec` itself. -/
def load_spec (from_ : String → Option Nat) (load : Nat → Except String Nat)
    (id : String) : Except String (Option Nat) :=
  match from_ id with
  | some spec =>
    match load spec with
    | .error e => .error e
    | .ok s => .ok (some s)
  | none => .ok none

/-- Event classifiers used to state trace properties. -/
def isRaceResolved : Event → Bool
  | .raceResolved _ => true
  | _ => false

def isFire : Event → Bool
  | .fireSignal => true
  | _ => false

def isTelemetryTake : Event → Bool
  | .telemetryTake => true
  | _ => false

def isTelemetryDrop : Event → Bool
  | .telemetryDrop => true
  | _ => false

def isNodeCtor : Event → Bool
  | .newLightCall _ => true
  | .newFullCall _ => true
  | _ => false

def isSignalTouch : Event → Bool
  | .signalCreate => true
  | .fireSignal => true
  | _ => false

def isTelemetryTouch : Event → Bool
  | .telemetryTake => true
  | .telemetryDrop => true
  | _ => false

def isSpawnUnscoped : Event → Bool
  | .spawn (.unscoped _) => true
  | _ => false

def isDispatch : Event → Bool
  | .buildSpecExec => true
  | .exportExec => true
  | .importExec => true
  | .purgeExec => true
  | .revertExec => true
  | .runValidationWorkerCall _ => true
  | _ => false

def isNewLight : Event → Bool
  | .newLightCall _ => true
  | _ => false

def isNewFull : Event → Bool
  | .newFullCall _ => true
  | _ => false

/-- The configuration passed to a node constructor by an event, if the
event is a constructor call. -/
def ctorConfig : Event → Option Configuration
  | .newLightCall c => some c
  | .newFullCall c => some c
  | _ => none

/-- `p` holds of the event at position `i` of the trace. -/
def eventAt (tr : List Event) (i : Nat) (p : Event → Bool) : Prop :=
  ∃ e, tr.get? i = some e ∧ p e = true

/-- Claim C4: in every execution of `run_until_exit` the telemetry guard
is taken once and released once, it is taken before the race resolves,
and the order of events is always: race resolved, then signal fired,
then telemetry guard released. -/
theorem C4_telemetry_dropped_after_fire (svc : Except String Unit)
    (untilR : Except Unit Unit) (w : Winner) :
    (run_until_exit svc untilR w).1.countP isTelemetryTake = 1 ∧
    (run_until_exit svc untilR w).1.countP isTelemetryDrop = 1 ∧
    ∃ i j k l : Nat, i < j ∧ j < k ∧ k < l ∧
      eventAt (run_until_exit svc untilR w).1 i isTelemetryTake ∧
      eventAt (run_until_exit svc untilR w).1 j isRaceResolved ∧
      eventAt (run_until_exit svc untilR w).1 k isFire ∧
      eventAt (run_until_exit svc untilR w).1 l isTelemetryDrop := by
  refine ⟨rfl, rfl, 2, 3, 4, 5, ?_, ?_, ?_, ⟨_, rfl, rfl⟩, ⟨_, rfl, rfl⟩,
    ⟨_, rfl, rfl⟩, ⟨_, rfl, rfl⟩⟩ <;> omega

/-- Claim C3: in every execution of `run_until_exit` that enters the
race, the cancellation token is fired exactly once, strictly after the
race resolves; the token (modelled from the spec, the `exit_future`
crate being external) is monotone — once fired it never un-fires — and
a second fire changes nothing and broadcasts no second event; `fire` is
a total function (no panic). -/
theorem C3_fire_exactly_once (svc : Except String Unit)
    (untilR : Except Unit Unit) (w : Winner) :
    (run_until_exit svc untilR w).1.countP isFire = 1 ∧
    (∃ i j : Nat, i < j ∧ eventAt (run_until_exit svc untilR w).1 i isRaceResolved ∧
      eventAt (run_until_exit svc untilR w).1 j isFire) ∧
    runFinalSignal.fired = true ∧
    (∀ s : ExitSignal, s.fired = true → ((s.fire).1).fired = true) ∧
    (∀ s : ExitSignal, s.fired = true → (s.fire).2 = none ∧ (s.fire).1 = s) ∧
    ((runFinalSignal.fire).2 = none ∧ (runFinalSignal.fire).1 = runFinalSignal) := by
  refine ⟨rfl, ⟨3, 4, by omega, ⟨_, rfl, rfl⟩, ⟨_, rfl, rfl⟩⟩, rfl, ?_, ?_, rfl, rfl⟩
  · intro s hs
    simp [ExitSignal.fire, hs]
  · intro s hs
    simp [ExitSignal.fire, hs]

/-- Claim C3 witness: concrete instance of the fire-exactly-once
theorem, including the double-fire conjuncts. -/
theorem C3_fire_exactly_once_witness :
    (run_until_exit (Except.ok ()) (Except.ok ()) Winner.service).1.countP isFire = 1 ∧
    ((ExitSignal.fire ⟨true⟩).2 = none ∧ (ExitSignal.fire ⟨true⟩).1 = (⟨true⟩ : ExitSignal)) :=
  ⟨(C3_fire_exactly_once (Except.ok ()) (Except.ok ()) Winner.service).1,
   (C3_fire_exactly_once (Except.ok ()) (Except.ok ()) Winner.service).2.2.2.2.1 ⟨true⟩ rfl⟩

/-- Claim C9: in every execution of `run_until_exit` the informant is
spawned wrapped by `exit.until(..)`, i.e. scoped to the cancellation
token; no spawned task is unscoped — every task spawned by the trace is
the token-scoped informant. -/
theorem C9_informant_scoped_to_exit (svc : Except String Unit)
    (untilR : Except Unit Unit) (w : Winner) :
    Event.spawn (SpawnedTask.scopedToExit "informant") ∈ (run_until_exit svc untilR w).1 ∧
    (run_until_exit svc untilR w).1.countP isSpawnUnscoped = 0 ∧
    (∀ t : SpawnedTask, Event.spawn t ∈ (run_until_exit svc untilR w).1 →
      t = SpawnedTask.scopedToExit "informant") := by
  refine ⟨?_, rfl, ?_⟩
  · simp [run_until_exit]
  · intro t ht
    simp [run_until_exit] at ht
    exact ht

/-- Claim C9 witness: concrete instance of the informant-scoping
theorem. -/
theorem C9_informant_scoped_to_exit_witness :
    Event.spawn (SpawnedTask.scopedToExit "informant") ∈
      (run_until_exit (Except.ok ()) (Except.ok ()) Winner.exitTrigger).1 :=
  (C9_informant_scoped_to_exit (Except.ok ()) (Except.ok ()) Winner.exitTrigger).1

/-- Claim C1 counterexample: with the service completion future
resolving first with an error, `run_until_exit` returns `Ok(())` — the
wrapped error does not surface as the result, because the result of the
race is discarded (`let _ = runtime.block_on(select);`). -/
theorem C1_counterexample :
    (run_until_exit (Except.error "boom") (Except.ok ()) Winner.service).2 = Except.ok () ∧
    (run_until_exit (Except.error "boom") (Except.ok ()) Winner.service).2 ≠
      Except.error (CliError.Service "boom") := by
  exact ⟨rfl, by decide⟩

/-- Claim C1 (amended): the errors are wrapped as the claim states —
a service error as `Error::Service`, an exit-trigger error as the
exit-trigger failure (`Error::Other`) — inside the resolved race
outcome; the race is entered exactly once (no restart); but
`run_until_exit` discards the race outcome and always returns
`Ok(())`. -/
theorem C1_error_wrapping (svc : Except String Unit)
    (untilR : Except Unit Unit) (w : Winner) :
    (∀ e : String, w = Winner.service → svc = Except.error e →
      Event.raceResolved (Except.error (CliError.Service e)) ∈ (run_until_exit svc untilR w).1) ∧
    (w = Winner.exitTrigger → untilR = Except.error () →
      Event.raceResolved (Except.error (CliError.Other "Exit future failed.")) ∈
        (run_until_exit svc untilR w).1) ∧
    (run_until_exit svc untilR w).1.countP isRaceResolved = 1 ∧
    (run_until_exit svc untilR w).2 = Except.ok () := by
  refine ⟨?_, ?_, rfl, rfl⟩
  · intro e hw hsvc
    subst hw; subst hsvc
    simp [run_until_exit, selectOutcome, Except.mapError]
  · intro hw hu
    subst hw; subst hu
    simp [run_until_exit, selectOutcome, Except.mapError]

/-- Claim C1 witness: concrete instances of the error-wrapping theorem
for both the service-error branch and the exit-trigger-error branch. -/
theorem C1_error_wrapping_witness :
    Event.raceResolved (Except.error (CliError.Service "boom")) ∈
      (run_until_exit (Except.error "boom") (Except.ok ()) Winner.service).1 ∧
    Event.raceResolved (Except.error (CliError.Other "Exit future failed.")) ∈
      (run_until_exit (Except.ok ()) (Except.error ()) Winner.exitTrigger).1 :=
  ⟨(C1_error_wrapping (Except.error "boom") (Except.ok ()) Winner.service).1 "boom" rfl rfl,
   (C1_error_wrapping (Except.ok ()) (Except.error ()) Winner.exitTrigger).2.1 rfl rfl⟩

/-- Shape of a `runCtor` trace: the constructor-call event on the given
configuration, followed by a tail containing no constructor calls and no
constructor configurations. -/
theorem runCtor_trace (ev : Configuration → Event)
    (ctor : Configuration → Except String (Except String Unit))
    (untilR : Except Unit Unit) (w : Winner) (X : Configuration) :
    ∃ tl : List Event, (runCtor ev ctor untilR w X).1 = ev X :: tl ∧
      ∀ e ∈ tl, isNodeCtor e = false ∧ ctorConfig e = none ∧
        isNewLight e = false ∧ isNewFull e = false := by
  rcases h : ctor X with e | svc
  · exact ⟨[], by simp [runCtor, h], by simp⟩
  · refine ⟨(run_until_exit svc untilR w).1, by simp [runCtor, h], ?_⟩
    intro e he
    simp [run_until_exit] at he
    rcases he with rfl | rfl | rfl | rfl | rfl | rfl <;>
      simp [isNodeCtor, ctorConfig, isNewLight, isNewFull]

/-- On constructor failure, `runCtor` returns the lone constructor-call
event and the raw error. -/
theorem runCtor_error (ev : Configuration → Event)
    (ctor : Configuration → Except String (Except String Unit))
    (untilR : Except Unit Unit) (w : Winner) (X : Configuration) (e : String)
    (h : ctor X = Except.error e) :
    runCtor ev ctor untilR w X = ([ev X], Except.error e) := by
  simp [runCtor, h]

/-- Constructor-call counts of a `runCtor` trace: only the head event
can be a constructor call. -/
theorem runCtor_counts (ev : Configuration → Event)
    (ctor : Configuration → Except String (Except String Unit))
    (untilR : Except Unit Unit) (w : Winner) (X : Configuration) :
    (runCtor ev ctor untilR w X).1.countP isNewLight = (if isNewLight (ev X) then 1 else 0) ∧
    (runCtor ev ctor untilR w X).1.countP isNewFull = (if isNewFull (ev X) then 1 else 0) ∧
    (runCtor ev ctor untilR w X).1.countP isNodeCtor = (if isNodeCtor (ev X) then 1 else 0) := by
  obtain ⟨tl, htl, hall⟩ := runCtor_trace ev ctor untilR w X
  have h1 : tl.countP isNewLight = 0 :=
    List.countP_eq_zero.mpr fun e he => by simp [(hall e he).2.2.1]
  have h2 : tl.countP isNewFull = 0 :=
    List.countP_eq_zero.mpr fun e he => by simp [(hall e he).2.2.2]
  have h3 : tl.countP isNodeCtor = 0 :=
    List.countP_eq_zero.mpr fun e he => by simp [(hall e he).1]
  rw [htl]
  simp [List.countP_cons, h1, h2, h3]

/-- Unfolding of `nodeRunBody` with a live runtime: the light branch. -/
theorem nodeRunBody_light (cc : CustomConfiguration)
    (nl nf : Configuration → Except String (Except String Unit))
    (untilR : Except Unit Unit) (w : Winner) (cfg : Configuration)
    (h : cfg.roles = Roles.LIGHT) :
    nodeRunBody cc nl nf (Except.ok ()) untilR w cfg =
      runCtor Event.newLightCall nl untilR w { cfg with custom := cc } := by
  obtain ⟨cs, nm, rl, cu, rs⟩ := cfg
  cases rl <;> simp_all [nodeRunBody]

/-- Unfolding of `nodeRunBody` with a live runtime: the full branch. -/
theorem nodeRunBody_full (cc : CustomConfiguration)
    (nl nf : Configuration → Except String (Except String Unit))
    (untilR : Except Unit Unit) (w : Winner) (cfg : Configuration)
    (h : cfg.roles ≠ Roles.LIGHT) :
    nodeRunBody cc nl nf (Except.ok ()) untilR w cfg =
      runCtor Event.newFullCall nf untilR w { cfg with custom := cc } := by
  obtain ⟨cs, nm, rl, cu, rs⟩ := cfg
  cases rl <;> simp_all [nodeRunBody]

/-- Claim C2: in `NodeRun::run_until`, every configuration reaching node
construction (runtime creation succeeded) invokes `new_light` when the
role is `LIGHT` and `new_full` otherwise; exactly one constructor call
occurs per invocation, never both. -/
theorem C2_role_selects_constructor (cc : CustomConfiguration)
    (nl nf : Configuration → Except String (Except String Unit))
    (untilR : Except Unit Unit) (w : Winner) (cfg : Configuration) :
    (cfg.roles = Roles.LIGHT →
      (nodeRunBody cc nl nf (Except.ok ()) untilR w cfg).1.countP isNewLight = 1 ∧
      (nodeRunBody cc nl nf (Except.ok ()) untilR w cfg).1.countP isNewFull = 0) ∧
    (cfg.roles ≠ Roles.LIGHT →
      (nodeRunBody cc nl nf (Except.ok ()) untilR w cfg).1.countP isNewFull = 1 ∧
      (nodeRunBody cc nl nf (Except.ok ()) untilR w cfg).1.countP isNewLight = 0) ∧
    (nodeRunBody cc nl nf (Except.ok ()) untilR w cfg).1.countP isNodeCtor = 1 := by
  refine ⟨?_, ?_, ?_⟩
  · intro h
    rw [nodeRunBody_light cc nl nf untilR w cfg h]
    have hc := runCtor_counts Event.newLightCall nl untilR w { cfg with custom := cc }
    refine ⟨?_, ?_⟩
    · simpa [isNewLight] using hc.1
    · simpa [isNewFull] using hc.2.1
  · intro h
    rw [nodeRunBody_full cc nl nf untilR w cfg h]
    have hc := runCtor_counts Event.newFullCall nf untilR w { cfg with custom := cc }
    refine ⟨?_, ?_⟩
    · simpa [isNewFull] using hc.2.1
    · simpa [isNewLight] using hc.1
  · by_cases h : cfg.roles = Roles.LIGHT
    · rw [nodeRunBody_light cc nl nf untilR w cfg h]
      have hc := runCtor_counts Event.newLightCall nl untilR w { cfg with custom := cc }
      simpa [isNodeCtor] using hc.2.2
    · rw [nodeRunBody_full cc nl nf untilR w cfg h]
      have hc := runCtor_counts Event.newFullCall nf untilR w { cfg with custom := cc }
      simpa [isNodeCtor] using hc.2.2

/-- Claim C2 witness: concrete instances for a light-role and a
full-role configuration. -/
theorem C2_role_selects_constructor_witness :
    ((nodeRunBody ⟨0⟩ (fun _ => Except.ok (Except.ok ()))
        (fun _ => Except.ok (Except.ok ())) (Except.ok ()) (Except.ok ()) Winner.service
        ⟨"kusama", "alice", Roles.LIGHT, ⟨1⟩, 0⟩).1.countP isNewLight = 1) ∧
    ((nodeRunBody ⟨0⟩ (fun _ => Except.ok (Except.ok ()))
        (fun _ => Except.ok (Except.ok ())) (Except.ok ()) (Except.ok ()) Winner.service
        ⟨"kusama", "bob", Roles.FULL, ⟨1⟩, 0⟩).1.countP isNewFull = 1) :=
  ⟨((C2_role_selects_constructor ⟨0⟩ (fun _ => Except.ok (Except.ok ()))
      (fun _ => Except.ok (Except.ok ())) (Except.ok ()) Winner.service
      ⟨"kusama", "alice", Roles.LIGHT, ⟨1⟩, 0⟩).1 rfl).1,
   ((C2_role_selects_constructor ⟨0⟩ (fun _ => Except.ok (Except.ok ()))
      (fun _ => Except.ok (Except.ok ())) (Except.ok ()) Winner.service
      ⟨"kusama", "bob", Roles.FULL, ⟨1⟩, 0⟩).2.1 (by decide)).1⟩

/-- Claim C8: if the selected constructor fails in `NodeRun::run_until`,
the error is the immediate result of the invocation; the trace shows the
single constructor call and nothing else — in particular no exit signal
is created or fired and the telemetry guard is never touched, so the
shutdown protocol is never entered. -/
theorem C8_ctor_error_propagates (cc : CustomConfiguration)
    (nl nf : Configuration → Except String (Except String Unit))
    (untilR : Except Unit Unit) (w : Winner) (cfg : Configuration) :
    (∀ e : String, cfg.roles = Roles.LIGHT →
      nl { cfg with custom := cc } = Except.error e →
      nodeRunBody cc nl nf (Except.ok ()) untilR w cfg =
        ([Event.newLightCall { cfg with custom := cc }], Except.error e)) ∧
    (∀ e : String, cfg.roles ≠ Roles.LIGHT →
      nf { cfg with custom := cc } = Except.error e →
      nodeRunBody cc nl nf (Except.ok ()) untilR w cfg =
        ([Event.newFullCall { cfg with custom := cc }], Except.error e)) ∧
    (∀ e : String,
      (nl { cfg with custom := cc } = Except.error e ∧ cfg.roles = Roles.LIGHT) ∨
      (nf { cfg with custom := cc } = Except.error e ∧ cfg.roles ≠ Roles.LIGHT) →
      (nodeRunBody cc nl nf (Except.ok ()) untilR w cfg).1.countP isSignalTouch = 0 ∧
      (nodeRunBody cc nl nf (Except.ok ()) untilR w cfg).1.countP isTelemetryTouch = 0) := by
  refine ⟨?_, ?_, ?_⟩
  · intro e hrl herr
    rw [nodeRunBody_light cc nl nf untilR w cfg hrl]
    exact runCtor_error _ nl untilR w _ e herr
  · intro e hrl herr
    rw [nodeRunBody_full cc nl nf untilR w cfg hrl]
    exact runCtor_error _ nf untilR w _ e herr
  · rintro e (⟨herr, hrl⟩ | ⟨herr, hrl⟩)
    · rw [nodeRunBody_light cc nl nf untilR w cfg hrl,
        runCtor_error _ nl untilR w _ e herr]
      simp [isSignalTouch, isTelemetryTouch]
    · rw [nodeRunBody_full cc nl nf untilR w cfg hrl,
        runCtor_error _ nf untilR w _ e herr]
      simp [isSignalTouch, isTelemetryTouch]

/-- Claim C8 witness: concrete instance where the light constructor
fails. -/
theorem C8_ctor_error_propagates_witness :
    nodeRunBody ⟨0⟩ (fun _ => Except.error "db locked")
      (fun _ => Except.ok (Except.ok ())) (Except.ok ()) (Except.ok ()) Winner.service
      ⟨"kusama", "alice", Roles.LIGHT, ⟨1⟩, 0⟩ =
      ([Event.newLightCall ⟨"kusama", "alice", Roles.LIGHT, ⟨0⟩, 0⟩], Except.error "db locked") :=
  (C8_ctor_error_propagates ⟨0⟩ (fun _ => Except.error "db locked")
      (fun _ => Except.ok (Except.ok ())) (Except.ok ()) Winner.service
      ⟨"kusama", "alice", Roles.LIGHT, ⟨1⟩, 0⟩).1 "db locked" rfl rfl

/-- Claim C10: every constructor call in a `NodeRun::run_until`
invocation receives exactly the parsed configuration with its `custom`
field wholly replaced by the worker-supplied value and every other
field unchanged; the merge therefore happens strictly before either
constructor runs. -/
theorem C10_custom_config_merge (cc : CustomConfiguration)
    (nl nf : Configuration → Except String (Except String Unit))
    (rt : Except String Unit) (untilR : Except Unit Unit) (w : Winner)
    (cfg : Configuration) :
    ∀ e ∈ (nodeRunBody cc nl nf rt untilR w cfg).1, ∀ c : Configuration,
      ctorConfig e = some c →
      c = { cfg with custom := cc } ∧
      c.custom = cc ∧ c.chain_spec = cfg.chain_spec ∧ c.name = cfg.name ∧
      c.roles = cfg.roles ∧ c.rest = cfg.rest := by
  intro e he c hc
  cases rt with
  | error err => simp [nodeRunBody] at he
  | ok u =>
    cases u
    obtain ⟨tl, htl, hall⟩ :
        ∃ tl : List Event,
          (nodeRunBody cc nl nf (Except.ok ()) untilR w cfg).1 =
            (if cfg.roles = Roles.LIGHT
              then Event.newLightCall { cfg with custom := cc }
              else Event.newFullCall { cfg with custom := cc }) :: tl ∧
          ∀ x ∈ tl, ctorConfig x = none := by
      by_cases h : cfg.roles = Roles.LIGHT
      · obtain ⟨tl, htl, hall⟩ := runCtor_trace Event.newLightCall nl untilR w { cfg with custom := cc }
        exact ⟨tl, by rw [nodeRunBody_light cc nl nf untilR w cfg h, htl, if_pos h],
          fun x hx => (hall x hx).2.1⟩
      · obtain ⟨tl, htl, hall⟩ := runCtor_trace Event.newFullCall nf untilR w { cfg with custom := cc }
        exact ⟨tl, by rw [nodeRunBody_full cc nl nf untilR w cfg h, htl, if_neg h],
          fun x hx => (hall x hx).2.1⟩
    rw [htl] at he
    rcases List.mem_cons.mp he with rfl | htail
    · by_cases h : cfg.roles = Roles.LIGHT
      · rw [if_pos h] at hc
        simp only [ctorConfig] at hc
        injection hc with hc
        subst hc
        simp
      · rw [if_neg h] at hc
        simp only [ctorConfig] at hc
        injection hc with hc
        subst hc
        simp
    · rw [hall e htail] at hc
      simp at hc

/-- Claim C10 witness: concrete instance showing the constructor
receives the merged configuration. -/
theorem C10_custom_config_merge_witness :
    ((⟨"kusama", "alice", Roles.LIGHT, ⟨7⟩, 3⟩ : Configuration).custom =
      (⟨7⟩ : CustomConfiguration)) ∧
    ((⟨"kusama", "alice", Roles.LIGHT, ⟨7⟩, 3⟩ : Configuration).name = "alice") :=
  ⟨((C10_custom_config_merge ⟨7⟩ (fun _ => Except.error "x")
      (fun _ => Except.ok (Except.ok ())) (Except.ok ()) (Except.ok ()) Winner.service
      ⟨"kusama", "alice", Roles.LIGHT, ⟨1⟩, 3⟩)
      (Event.newLightCall ⟨"kusama", "alice", Roles.LIGHT, ⟨7⟩, 3⟩)
      (by simp [nodeRunBody, runCtor])
      ⟨"kusama", "alice", Roles.LIGHT, ⟨7⟩, 3⟩ rfl).2.1,
   ((C10_custom_config_merge ⟨7⟩ (fun _ => Except.error "x")
      (fun _ => Except.ok (Except.ok ())) (Except.ok ()) (Except.ok ()) Winner.service
      ⟨"kusama", "alice", Roles.LIGHT, ⟨1⟩, 3⟩)
      (Event.newLightCall ⟨"kusama", "alice", Roles.LIGHT, ⟨7⟩, 3⟩)
      (by simp [nodeRunBody, runCtor])
      ⟨"kusama", "alice", Roles.LIGHT, ⟨7⟩, 3⟩ rfl).2.2.2.1⟩

/-- Claim C5: `run` returns exactly one `Run` variant per parsed
command — the node path exactly for the `Run` command, the
validation-worker path exactly for the hidden custom subcommand, a
maintenance variant otherwise — and `OtherRun::run_until` dispatches
every variant to exactly one branch (exactly one branch-execution event
per invocation). -/
theorem C5_single_dispatch (cmd : ParseAndPrepare) (env : OtherEnv) :
    ((run cmd = Run.Node ∧ ¬∃ inner, run cmd = Run.Other inner) ∨
      ((∃ inner, run cmd = Run.Other inner) ∧ run cmd ≠ Run.Node)) ∧
    (run cmd = Run.Node ↔ cmd = ParseAndPrepare.Run) ∧
    (∀ c : ValidationWorkerCommand,
      run cmd = Run.Other (OtherRunInner.ValidationWorker c) ↔
        cmd = ParseAndPrepare.CustomCommand (PolkadotSubCommands.ValidationWorker c)) ∧
    (∀ inner : OtherRunInner, (otherRunUntil inner env).1.countP isDispatch = 1) := by
  refine ⟨?_, ?_, ?_, ?_⟩
  · cases cmd with
    | Run => exact Or.inl ⟨rfl, by rintro ⟨inner, h⟩; cases h⟩
    | BuildSpec => exact Or.inr ⟨⟨_, rfl⟩, by intro h; cases h⟩
    | ExportBlocks => exact Or.inr ⟨⟨_, rfl⟩, by intro h; cases h⟩
    | ImportBlocks => exact Or.inr ⟨⟨_, rfl⟩, by intro h; cases h⟩
    | PurgeChain => exact Or.inr ⟨⟨_, rfl⟩, by intro h; cases h⟩
    | RevertChain => exact Or.inr ⟨⟨_, rfl⟩, by intro h; cases h⟩
    | CustomCommand c =>
      cases c with
      | ValidationWorker v => exact Or.inr ⟨⟨_, rfl⟩, by intro h; cases h⟩
  · cases cmd with
    | CustomCommand c => cases c with | ValidationWorker v => simp [run]
    | _ => simp [run]
  · intro v
    cases cmd with
    | CustomCommand c => cases c with | ValidationWorker u => simp [run]
    | _ => simp [run]
  · intro inner
    cases inner <;> rfl

/-- Claim C5 witness: concrete instances of the dispatch theorem. -/
theorem C5_single_dispatch_witness :
    (run ParseAndPrepare.PurgeChain = Run.Node ↔ ParseAndPrepare.PurgeChain = ParseAndPrepare.Run) ∧
    (otherRunUntil (OtherRunInner.ValidationWorker ⟨"mem0"⟩)
      ⟨Except.ok (), Except.ok (), Except.ok (), Except.ok (), Except.ok (),
        fun _ => Except.ok ()⟩).1.countP isDispatch = 1 :=
  ⟨(C5_single_dispatch ParseAndPrepare.PurgeChain
      ⟨Except.ok (), Except.ok (), Except.ok (), Except.ok (), Except.ok (),
        fun _ => Except.ok ()⟩).2.1,
   (C5_single_dispatch ParseAndPrepare.PurgeChain
      ⟨Except.ok (), Except.ok (), Except.ok (), Except.ok (), Except.ok (),
        fun _ => Except.ok ()⟩).2.2.2 (OtherRunInner.ValidationWorker ⟨"mem0"⟩)⟩

/-- Claim C6: `load_spec` returns `Ok(None)` when the id matches no
known specification, propagates the load error when the id is known but
its data fails to load, wraps a successful load in `Ok(Some _)`, and —
being a pure function of its inputs — returns equivalent results on
repeated calls with the same id. -/
theorem C6_load_spec (from_ : String → Option Nat)
    (load : Nat → Except String Nat) (id : String) :
    (from_ id = none → load_spec from_ load id = Except.ok none) ∧
    (∀ s : Nat, ∀ e : String, from_ id = some s → load s = Except.error e →
      load_spec from_ load id = Except.error e) ∧
    (∀ s v : Nat, from_ id = some s → load s = Except.ok v →
      load_spec from_ load id = Except.ok (some v)) ∧
    load_spec from_ load id = load_spec from_ load id := by
  refine ⟨?_, ?_, ?_, rfl⟩
  · intro h
    simp [load_spec, h]
  · intro s e hs he
    simp [load_spec, hs, he]
  · intro s v hs hv
    simp [load_spec, hs, hv]

/-- Claim C6 witness: concrete resolver instances for the unknown-id and
the known-but-corrupt-id cases. -/
theorem C6_load_spec_witness :
    load_spec (fun _ => none) (fun _ => Except.ok 0) "unknown-id" = Except.ok none ∧
    load_spec (fun _ => some 5) (fun _ => Except.error "corrupt genesis") "alexander" =
      Except.error "corrupt genesis" :=
  ⟨(C6_load_spec (fun _ => none) (fun _ => Except.ok 0) "unknown-id").1 rfl,
   (C6_load_spec (fun _ => some 5) (fun _ => Except.error "corrupt genesis") "alexander").2.1
     5 "corrupt genesis" rfl rfl⟩

/-- Claim C7: the validation-worker path of `OtherRun::run_until`
produces, for every `mem_id`, exactly the single call to
`run_validation_worker` on that id: no node constructor, no
cancellation-token creation or firing, no telemetry access, and no
other branch execution appear in its trace. -/
theorem C7_validation_worker_isolated (cmd : ValidationWorkerCommand) (env : OtherEnv) :
    (otherRunUntil (OtherRunInner.ValidationWorker cmd) env).1 =
      [Event.runValidationWorkerCall cmd.mem_id] ∧
    (otherRunUntil (OtherRunInner.ValidationWorker cmd) env).1.countP isNodeCtor = 0 ∧
    (otherRunUntil (OtherRunInner.ValidationWorker cmd) env).1.countP isSignalTouch = 0 ∧
    (otherRunUntil (OtherRunInner.ValidationWorker cmd) env).1.countP isTelemetryTouch = 0 ∧
    (otherRunUntil (OtherRunInner.ValidationWorker cmd) env).1.countP isSpawnUnscoped = 0 :=
  ⟨rfl, rfl, rfl, rfl, rfl⟩

end PolkadotCli
